import Mathlib

/-!
# Verification of a sharded, replicated key-value store

Shallow embedding of the repository's Python sources (`server.py`,
`client.py`, `labrpc/labrpc.py`) and proofs about them.

Modelling conventions:
* Python `dict`s over string keys become association lists
  (`List (String × String)`) with first-match lookup and in-place update.
* Machine-level details the spec declares out of scope (the byte codec,
  threads, real time) are elided: RPC delivery is an explicit oracle
  (`deliver : Nat → Bool` per attempt), and handlers are modelled as pure
  state transformers, which matches the source because every store/dedup
  access is inside the replica's single mutex.
* `net.is_server_enabled(id)` is carried as a boolean field of the
  replica's state, read wherever the source reads it.
-/

namespace KVStore

/-! ## Python `int(str)` — fragment used by `key_to_shard`

`server.key_to_shard` and `Clerk.key_to_shard` call CPython's `int` on the
key and fall back to a code-point sum on `ValueError`.  We model the
fragment of `int(str)` relevant to ASCII keys: optional surrounding ASCII
whitespace, an optional `+`/`-` sign, and a nonempty run of ASCII digits in
which single underscores may separate digits.  (CPython additionally
accepts non-ASCII numerals; the keys in this development are ASCII.) -/

def isPyDigit (c : Char) : Bool := '0' ≤ c && c ≤ '9'

def isPySpace (c : Char) : Bool :=
  c = ' ' || c = '\t' || c = '\n' || c = '\r' || c = '\x0b' || c = '\x0c'

/-- Digit run after the first digit: an underscore must sit between two
digits, never doubled, leading or trailing. -/
def pyDigitsAux : List Char → Nat → Option Nat
  | [], acc => some acc
  | '_' :: c :: rest, acc =>
      if isPyDigit c then pyDigitsAux rest (acc * 10 + (c.toNat - 48)) else none
  | ['_'], _ => none
  | c :: rest, acc =>
      if isPyDigit c then pyDigitsAux rest (acc * 10 + (c.toNat - 48)) else none

def pyDigits : List Char → Option Nat
  | [] => none
  | c :: rest => if isPyDigit c then pyDigitsAux rest (c.toNat - 48) else none

def pyStrip (l : List Char) : List Char :=
  ((l.dropWhile isPySpace).reverse.dropWhile isPySpace).reverse

/-- `int(s)` as an `Option`: `none` models the `ValueError` branch. -/
def pyParseInt (s : String) : Option Int :=
  match pyStrip s.data with
  | '+' :: rest => (pyDigits rest).map Int.ofNat
  | '-' :: rest => (pyDigits rest).map (fun n => -(Int.ofNat n))
  | l => (pyDigits l).map Int.ofNat

/-- `server.key_to_shard`: `int(key) % nshards` when `int` succeeds
(Python `%` on a positive modulus is non-negative, i.e. `Int.emod`),
otherwise the sum of the key's code points mod `nshards`. -/
def key_to_shard (key : String) (nshards : Nat) : Nat :=
  match pyParseInt key with
  | some i => (i.emod (nshards : Int)).toNat
  | none => (key.data.map Char.toNat).sum % nshards

/-- `Clerk.key_to_shard` from `client.py` — same body as the server's. -/
def clerkKeyToShard (key : String) (nshards : Nat) : Nat :=
  match pyParseInt key with
  | some i => (i.emod (nshards : Int)).toNat
  | none => (key.data.map Char.toNat).sum % nshards

/-! ## Association-list model of Python `dict[str, str]` -/

/-- First-binding lookup, Python `d.get(k)`. -/
def lookupA : List (String × String) → String → Option String
  | [], _ => none
  | (k', v) :: rest, k => if k = k' then some v else lookupA rest k

/-- Python `d[k] = v`: replace the binding in place, or add it. -/
def insertA (l : List (String × String)) (k v : String) : List (String × String) :=
  match l with
  | [] => [(k, v)]
  | (k', v') :: rest => if k' = k then (k, v) :: rest else (k', v') :: insertA rest k v

/-! ## KV replica state (`server.KVServer`)

`store` and `processed` are the fields `self.store` and
`self.processed_requests` (the dedup table maps a request id to the reply's
`value` string).  `enabled` is `cfg.net.is_server_enabled(my_id)`. -/

structure ReplicaState where
  my_id : Nat
  nshards : Nat
  shard_id : Option Nat
  replica_ids : List Nat
  enabled : Bool
  store : List (String × String)
  processed : List (String × String)
deriving Repr, DecidableEq

structure PAArgs where
  key : String
  value : String
  op : String
  request_id : String
deriving Repr, DecidableEq

/-- `KVServer.is_primary`. -/
def is_primary (st : ReplicaState) : Bool :=
  !st.replica_ids.isEmpty && st.replica_ids.head? == some st.my_id

/-- `KVServer.owns_shard`: enabled, on the key's shard, and a member of its
own replica list.  (A Python `self.shard_id == shard_id` with
`shard_id = None` compares unequal to any int, matching `Option` equality.) -/
def owns_shard (st : ReplicaState) (key : String) : Bool :=
  st.enabled && (st.shard_id == some (key_to_shard key st.nshards))
    && st.replica_ids.contains st.my_id

/-- `KVServer.Get`. -/
def GetOp (st : ReplicaState) (key : String) : String :=
  if !owns_shard st key then "__FAIL__"
  else (lookupA st.store key).getD ""

/-- The guarded dedup-check-then-apply block shared verbatim by
`KVServer.Replicate` and step 2 of `KVServer._handle_request`:
if the request id is cached return the cached reply, else read the old
value, mutate per `op`, record the reply, return the old value. -/
def apply_mutation (st : ReplicaState) (args : PAArgs) : String × ReplicaState :=
  match lookupA st.processed args.request_id with
  | some r => (r, st)
  | none =>
      let old := (lookupA st.store args.key).getD ""
      let store' :=
        if args.op = "Put" then insertA st.store args.key args.value
        else if args.op = "Append" then insertA st.store args.key (old ++ args.value)
        else st.store
      (old, { st with store := store',
                      processed := insertA st.processed args.request_id old })

/-- `KVServer.Replicate`: admission check, then the guarded apply. -/
def Replicate (st : ReplicaState) (args : PAArgs) : String × ReplicaState :=
  if !owns_shard st args.key then ("__FAIL__", st)
  else apply_mutation st args

/-- The per-peer attempt loop of `KVServer.forward_to_replicas`
(`for attempt in range(5)`).  `deliver i` says whether the RPC of attempt
`i` reaches the peer and its reply comes back (`False` covers the raised
exception the source swallows).  The enabled check guards each attempt, as
in the source; an attempt succeeds iff the reply value is not `__FAIL__`,
and a failed attempt falls through to the next one. -/
def tryReplicate (args : PAArgs) (deliver : Nat → Bool) :
    Nat → Nat → ReplicaState → Bool × ReplicaState
  | 0, _, st => (false, st)
  | n + 1, i, st =>
      if st.enabled && deliver i then
        let r := Replicate st args
        if r.1 ≠ "__FAIL__" then (true, r.2)
        else tryReplicate args deliver n (i + 1) r.2
      else tryReplicate args deliver n (i + 1) st

/-- The fan-out loop of `KVServer.forward_to_replicas` over the peer list,
threading the peers' states and counting peers whose attempt loop
succeeded. -/
def forwardList (args : PAArgs) (deliver : Nat → Nat → Bool) :
    List Nat → (Nat → ReplicaState) → Nat × (Nat → ReplicaState)
  | [], peers => (0, peers)
  | rid :: rest, peers =>
      let tr := tryReplicate args (deliver rid) 5 0 (peers rid)
      let peers' := fun j => if j = rid then tr.2 else peers j
      let rec' := forwardList args deliver rest peers'
      ((if tr.1 then 1 else 0) + rec'.1, rec'.2)

/-- `KVServer.forward_to_replicas`: iterate `replica_ids`, skipping
`my_id` (`if rep_id == self.my_id: continue`). -/
def forward_to_replicas (st : ReplicaState) (args : PAArgs)
    (peers : Nat → ReplicaState) (deliver : Nat → Nat → Bool) :
    Nat × (Nat → ReplicaState) :=
  forwardList args deliver (st.replica_ids.filter (fun r => r ≠ st.my_id)) peers

/-- `KVServer._handle_request` (the body of `Put` and `Append`):
admission, early dedup, replicate-before-apply with the gate
`if success == 0: return "__FAIL__"`, then the guarded apply.
Returns (reply value, local state, peer states). -/
def handle_request (st : ReplicaState) (peers : Nat → ReplicaState)
    (deliver : Nat → Nat → Bool) (args : PAArgs) :
    String × ReplicaState × (Nat → ReplicaState) :=
  if !owns_shard st args.key then ("__FAIL__", st, peers)
  else
    match lookupA st.processed args.request_id with
    | some r => (r, st, peers)
    | none =>
        if args.op = "Put" ∨ args.op = "Append" then
          let fwd := forward_to_replicas st args peers deliver
          if fwd.1 = 0 then ("__FAIL__", st, fwd.2)
          else
            let ar := apply_mutation st args
            (ar.1, ar.2, fwd.2)
        else
          let ar := apply_mutation st args
          (ar.1, ar.2, peers)

/-! ## Clerk (`client.py`)

`put_append` allocates one request id from `next_request_id`, builds one
`PutAppendArgs`, then runs `retry_limit = 50` attempts; each attempt scans
the shard's server list in order and calls `KVServer.{op}` on every
network-enabled server until a reply other than `__FAIL__` arrives.  The
RPC itself is an oracle `rpc attempt sid : Option String` (`none` models
the exception the source catches), and the model additionally returns the
log of calls actually issued — each log entry records the attempt number,
the server contacted, and the `request_id` field of the args sent. -/

structure ClerkState where
  req_counter : Nat
deriving Repr, DecidableEq

/-- `Clerk.next_request_id`: `f"{uuid.uuid4()}-{self._req_id}"` after
incrementing the counter; the fresh random token is the parameter
`uuid`. -/
def next_request_id (uuid : String) (ck : ClerkState) : String × ClerkState :=
  (uuid ++ "-" ++ toString (ck.req_counter + 1), ⟨ck.req_counter + 1⟩)

/-- One pass of the inner `for sid in servers` loop of
`Clerk.put_append`. -/
def clerkScan (enabled : Nat → Bool) (rpc : Nat → Option String)
    (attempt : Nat) (args : PAArgs) :
    List Nat → Option String × List (Nat × Nat × String)
  | [] => (none, [])
  | sid :: rest =>
      if enabled sid then
        match rpc sid with
        | some v =>
            if v ≠ "__FAIL__" then (some v, [(attempt, sid, args.request_id)])
            else
              let r := clerkScan enabled rpc attempt args rest
              (r.1, (attempt, sid, args.request_id) :: r.2)
        | none =>
            let r := clerkScan enabled rpc attempt args rest
            (r.1, (attempt, sid, args.request_id) :: r.2)
      else clerkScan enabled rpc attempt args rest

/-- The outer `for attempt in range(self.retry_limit)` loop of
`Clerk.put_append`; falls off the loop with `"__FAIL__"`. -/
def clerkRetry (enabled : Nat → Bool) (rpc : Nat → Nat → Option String)
    (args : PAArgs) (servers : List Nat) :
    Nat → Nat → String × List (Nat × Nat × String)
  | 0, _ => ("__FAIL__", [])
  | n + 1, a =>
      let pass := clerkScan enabled (rpc a) a args servers
      match pass.1 with
      | some v => (v, pass.2)
      | none =>
          let r := clerkRetry enabled rpc args servers n (a + 1)
          (r.1, pass.2 ++ r.2)

/-- `Clerk.put_append`. -/
def put_append (ck : ClerkState) (uuid : String)
    (nshards : Nat) (shard_to_servers : Nat → List Nat)
    (enabled : Nat → Bool) (rpc : Nat → Nat → Option String)
    (key value op : String) :
    String × ClerkState × List (Nat × Nat × String) :=
  let servers := shard_to_servers (clerkKeyToShard key nshards)
  if servers = [] then ("__FAIL__", ck, [])
  else
    let r := next_request_id uuid ck
    let args : PAArgs := ⟨key, value, op, r.1⟩
    let out := clerkRetry enabled rpc args servers 50 0
    (out.1, r.2, out.2)

/-! ## RPC dispatch (`labrpc.Server.dispatch`, `labrpc.Service.dispatch`)

The possible outcomes of dispatching one request.  `procExit` stands for
process termination; the Python sources never produce it, because
`logging.fatal` is an alias of `logging.critical` — it writes a log record
and returns, after which `dispatch` returns `ReplyMsg(False, None)`
(modelled `reply false none`).  `raised` models an uncaught Python
exception (`str.rindex` raising `ValueError` when `svcMeth` has no dot).
The byte codec is out of scope, so a method is `α → ρ` on decoded
values. -/

inductive RpcStep (ρ : Type) where
  | reply (ok : Bool) (val : Option ρ)
  | raised
  | procExit
deriving Repr, DecidableEq

structure ServiceM (α ρ : Type) where
  name : String
  methods : List (String × (α → ρ))

/-- `labrpc.Service.dispatch`: look the method name up in the receiver's
method table; found ⇒ invoke and reply `ok`; unknown ⇒ `logging.fatal`
(log only) then `ReplyMsg(False, None)`. -/
def serviceDispatch (svc : ServiceM α ρ) (methname : String) (arg : α) : RpcStep ρ :=
  match List.lookup methname svc.methods with
  | some m => .reply true (some (m arg))
  | none => .reply false none

/-- `req.svcMeth.rindex('.')` split: the text before and after the last
dot, `none` when there is no dot (Python raises `ValueError`). -/
def splitLastDot (s : String) : Option (String × String) :=
  let rev := s.data.reverse
  let m := rev.takeWhile (fun c => c ≠ '.')
  if m.length = rev.length then none
  else some (⟨(rev.drop (m.length + 1)).reverse⟩, ⟨m.reverse⟩)

/-- `labrpc.Server.dispatch`: split `svcMeth` at the last dot, look the
service up; found ⇒ delegate to `Service.dispatch`; unknown ⇒
`logging.fatal` (log only) then `ReplyMsg(False, None)`. -/
def serverDispatch (services : List (String × ServiceM α ρ))
    (svcMeth : String) (arg : α) : RpcStep ρ :=
  match splitLastDot svcMeth with
  | none => .raised
  | some (sname, mname) =>
      match List.lookup sname services with
      | some svc => serviceDispatch svc mname arg
      | none => .reply false none

/-! ## Concrete instances used as counterexamples and witnesses

`nshards = 3` matches `Config.nshards`; ids and shard assignments follow
`make_shard_config` (shard 0 owned by the lowest-numbered servers). -/

/-- A single-replica shard: server 0 is the only member of shard 0's
replica list (the `nreplicas = 1` configuration, `Config.__init__`'s
default). -/
def soloState : ReplicaState := ⟨0, 3, some 0, [0], true, [], []⟩

/-- Shard 0 with replica list `[0, 1]`: the primary, server 0. -/
def primState : ReplicaState := ⟨0, 3, some 0, [0, 1], true, [], []⟩

/-- Shard 0 with replica list `[0, 1]`: the non-primary, server 1. -/
def secState : ReplicaState := ⟨1, 3, some 0, [0, 1], true, [], []⟩

/-- A replica of shard 0 that has already applied request `r1` on key
`"0"` (old value was `""`, the store now holds `"A"`). -/
def dedupState : ReplicaState := ⟨0, 3, some 0, [0, 1], true, [("0", "A")], [("r1", "")]⟩

/-- `Put("0", "A")` with request id `r1`. -/
def putArgs : PAArgs := ⟨"0", "A", "Put", "r1"⟩

/-- `Put("1", "B")` reusing request id `r1`; key `"1"` lives on shard 1. -/
def putArgsOtherShard : PAArgs := ⟨"1", "B", "Put", "r1"⟩

/-- `Append("0", "B")` reusing request id `r1` with a different op and
value. -/
def dupArgs : PAArgs := ⟨"0", "B", "Append", "r1"⟩

/-- `Append("0", "X")` with fresh request id `r2`. -/
def appendArgs : PAArgs := ⟨"0", "X", "Append", "r2"⟩

/-- Peer oracle assigning every id the same state. -/
def constPeers (st : ReplicaState) : Nat → ReplicaState := fun _ => st

/-- Delivery oracle with every RPC delivered. -/
def allDeliver : Nat → Nat → Bool := fun _ _ => true

/-- A service record with `KVServer`-style method names, over opaque
decoded payloads (`Nat`), for exercising `serverDispatch`. -/
def kvServiceM : ServiceM Nat Nat :=
  ⟨"KVServer", [("Get", fun n => n), ("Put", fun n => n),
                ("Append", fun n => n), ("Replicate", fun n => n)]⟩

/-! ## Helper lemmas -/

theorem lookupA_insertA (l : List (String × String)) (k v k' : String) :
    lookupA (insertA l k v) k' = if k' = k then some v else lookupA l k' := by
  induction l with
  | nil => simp [insertA, lookupA]
  | cons p rest ih =>
      obtain ⟨a, b⟩ := p
      by_cases hak : a = k
      · subst hak
        by_cases h : k' = a <;> simp [insertA, lookupA, h]
      · by_cases h : k' = a
        · have hkk : ¬ k' = k := fun he => hak (h ▸ he)
          simp [insertA, lookupA, hak, h, hkk]
        · simp [insertA, lookupA, hak, h, ih]

/-- A reply other than `__FAIL__` from `Replicate` means the peer has the
request id recorded (mapped to that very reply) when the call returns. -/
theorem Replicate_nonfail_recorded (st : ReplicaState) (args : PAArgs)
    (h : (Replicate st args).1 ≠ "__FAIL__") :
    lookupA (Replicate st args).2.processed args.request_id = some (Replicate st args).1 := by
  cases howns : owns_shard st args.key with
  | false => simp [Replicate, howns] at h
  | true =>
      cases hc : lookupA st.processed args.request_id with
      | none => simp [Replicate, howns, apply_mutation, hc, lookupA_insertA]
      | some r => simp [Replicate, howns, apply_mutation, hc]

/-- `Replicate` never discards a dedup entry. -/
theorem Replicate_processed_mono (st : ReplicaState) (args : PAArgs)
    (k v : String) (h : lookupA st.processed k = some v) :
    lookupA (Replicate st args).2.processed k = some v := by
  cases howns : owns_shard st args.key with
  | false => simpa [Replicate, howns] using h
  | true =>
      cases hc : lookupA st.processed args.request_id with
      | none =>
          have hk : ¬ k = args.request_id := by
            intro he; rw [he, hc] at h; exact Option.noConfusion h
          simp [Replicate, howns, apply_mutation, hc, lookupA_insertA, hk, h]
      | some r => simpa [Replicate, howns, apply_mutation, hc] using h

/-- The per-peer attempt loop never discards a dedup entry. -/
theorem tryReplicate_processed_mono (args : PAArgs) (d : Nat → Bool)
    (k v : String) :
    ∀ n i st, lookupA st.processed k = some v →
      lookupA (tryReplicate args d n i st).2.processed k = some v := by
  intro n
  induction n with
  | zero => intro i st h; simpa [tryReplicate] using h
  | succ n ih =>
      intro i st h
      rw [tryReplicate]
      by_cases hd : (st.enabled && d i) = true
      · rw [if_pos hd]
        by_cases hr : (Replicate st args).1 ≠ "__FAIL__"
        · rw [if_pos hr]
          exact Replicate_processed_mono st args k v h
        · rw [if_neg hr]
          exact ih (i + 1) _ (Replicate_processed_mono st args k v h)
      · rw [if_neg hd]
        exact ih (i + 1) st h

/-- A `true` verdict from the attempt loop means the request id is
recorded at the peer when the loop ends. -/
theorem tryReplicate_true_recorded (args : PAArgs) (d : Nat → Bool) :
    ∀ n i st, (tryReplicate args d n i st).1 = true →
      ∃ v, lookupA (tryReplicate args d n i st).2.processed args.request_id = some v := by
  intro n
  induction n with
  | zero => intro i st h; simp [tryReplicate] at h
  | succ n ih =>
      intro i st h
      rw [tryReplicate] at h ⊢
      by_cases hd : (st.enabled && d i) = true
      · rw [if_pos hd] at h ⊢
        by_cases hr : (Replicate st args).1 ≠ "__FAIL__"
        · rw [if_pos hr]
          exact ⟨_, Replicate_nonfail_recorded st args hr⟩
        · rw [if_neg hr] at h ⊢
          exact ih (i + 1) _ h
      · rw [if_neg hd] at h ⊢
        exact ih (i + 1) st h

/-- The fan-out never discards a dedup entry at any peer slot. -/
theorem forwardList_processed_mono (args : PAArgs) (d : Nat → Nat → Bool)
    (k v : String) :
    ∀ (l : List Nat) (peers : Nat → ReplicaState) (j : Nat),
      lookupA (peers j).processed k = some v →
      lookupA ((forwardList args d l peers).2 j).processed k = some v := by
  intro l
  induction l with
  | nil => intro peers j h; simpa [forwardList] using h
  | cons rid rest ih =>
      intro peers j h
      rw [forwardList]
      apply ih
      by_cases hj : j = rid
      · subst hj
        simp only [if_pos rfl]
        exact tryReplicate_processed_mono args (d j) k v 5 0 (peers j) h
      · simpa [hj] using h

/-- A nonzero success count from the fan-out names a peer in the list that
holds the request id in its dedup table afterwards. -/
theorem forwardList_success_recorded (args : PAArgs) (d : Nat → Nat → Bool) :
    ∀ (l : List Nat) (peers : Nat → ReplicaState),
      (forwardList args d l peers).1 ≠ 0 →
      ∃ j ∈ l, ∃ v,
        lookupA ((forwardList args d l peers).2 j).processed args.request_id = some v := by
  intro l
  induction l with
  | nil => intro peers h; simp [forwardList] at h
  | cons rid rest ih =>
      intro peers h
      rw [forwardList] at h ⊢
      by_cases htr : (tryReplicate args (d rid) 5 0 (peers rid)).1 = true
      · refine ⟨rid, List.mem_cons_self rid rest, ?_⟩
        obtain ⟨v, hv⟩ := tryReplicate_true_recorded args (d rid) 5 0 (peers rid) htr
        refine ⟨v, ?_⟩
        apply forwardList_processed_mono
        simpa using hv
      · simp only [Bool.not_eq_true] at htr
        simp only [htr, Bool.false_eq_true, if_false, Nat.zero_add] at h
        obtain ⟨j, hj, v, hv⟩ := ih _ h
        exact ⟨j, List.mem_cons_of_mem rid hj, v, hv⟩

/-- Every call issued by one pass of the Clerk's inner server loop carries
the `request_id` of the args it was given. -/
theorem clerkScan_entry_rid (enabled : Nat → Bool) (rpc : Nat → Option String)
    (a : Nat) (args : PAArgs) :
    ∀ servers, ∀ e ∈ (clerkScan enabled rpc a args servers).2,
      e.2.2 = args.request_id := by
  intro servers
  induction servers with
  | nil => intro e he; simp [clerkScan] at he
  | cons sid rest ih =>
      intro e he
      rw [clerkScan] at he
      by_cases hen : enabled sid = true
      · rw [if_pos hen] at he
        cases hr : rpc sid with
        | none =>
            simp only [hr, List.mem_cons] at he
            rcases he with he | he
            · rw [he]
            · exact ih e he
        | some v =>
            simp only [hr] at he
            by_cases hv : v ≠ "__FAIL__"
            · rw [if_pos hv] at he
              simp only [List.mem_singleton] at he
              rw [he]
            · rw [if_neg hv] at he
              simp only [List.mem_cons] at he
              rcases he with he | he
              · rw [he]
              · exact ih e he
      · rw [if_neg hen] at he
        exact ih e he

/-- If every reply the oracle ever produces is `__FAIL__`, one pass of the
inner loop finds no acceptable reply. -/
theorem clerkScan_all_fail (enabled : Nat → Bool) (rpc : Nat → Option String)
    (a : Nat) (args : PAArgs)
    (h : ∀ sid v, rpc sid = some v → v = "__FAIL__") :
    ∀ servers, (clerkScan enabled rpc a args servers).1 = none := by
  intro servers
  induction servers with
  | nil => simp [clerkScan]
  | cons sid rest ih =>
      rw [clerkScan]
      by_cases hen : enabled sid = true
      · rw [if_pos hen]
        cases hr : rpc sid with
        | none => simpa using ih
        | some v =>
            have hv : ¬ v ≠ "__FAIL__" := by simpa using h sid v hr
            simpa [hv] using ih
      · rw [if_neg hen]
        exact ih

/-- Every call issued across the Clerk's retry loop carries the
`request_id` of the args built before the loop. -/
theorem clerkRetry_entry_rid (enabled : Nat → Bool) (rpc : Nat → Nat → Option String)
    (args : PAArgs) (servers : List Nat) :
    ∀ n a, ∀ e ∈ (clerkRetry enabled rpc args servers n a).2,
      e.2.2 = args.request_id := by
  intro n
  induction n with
  | zero => intro a e he; simp [clerkRetry] at he
  | succ n ih =>
      intro a e he
      rw [clerkRetry] at he
      cases hp : (clerkScan enabled (rpc a) a args servers).1 with
      | some v =>
          simp only [hp] at he
          exact clerkScan_entry_rid enabled (rpc a) a args servers e he
      | none =>
          simp only [hp, List.mem_append] at he
          rcases he with he | he
          · exact clerkScan_entry_rid enabled (rpc a) a args servers e he
          · exact ih (a + 1) e he

/-- If every reply the oracle ever produces is `__FAIL__`, the retry loop
exhausts its budget and returns `__FAIL__`. -/
theorem clerkRetry_all_fail (enabled : Nat → Bool) (rpc : Nat → Nat → Option String)
    (args : PAArgs) (servers : List Nat)
    (h : ∀ a sid v, rpc a sid = some v → v = "__FAIL__") :
    ∀ n a, (clerkRetry enabled rpc args servers n a).1 = "__FAIL__" := by
  intro n
  induction n with
  | zero => intro a; simp [clerkRetry]
  | succ n ih =>
      intro a
      rw [clerkRetry]
      rw [clerkScan_all_fail enabled (rpc a) a args (fun sid v hv => h a sid v hv) servers]
      simpa using ih (a + 1)

/-! ## Claim theorems -/

/-- Claim C1.  The claim says a replica whose shard has an empty peer set
satisfies the replication gate vacuously and applies the write.  The code
checks only `if success == 0: return "__FAIL__"` with no `peer_count > 0`
guard, so on a single-replica shard (server 0 alone in `[0]`, owning the
key's shard, fresh request id) every Put returns `__FAIL__` and leaves the
replica unchanged. -/
theorem single_replica_put_fails :
    soloState.replica_ids = [soloState.my_id]
    ∧ owns_shard soloState putArgs.key = true
    ∧ lookupA soloState.processed putArgs.request_id = none
    ∧ (handle_request soloState (constPeers soloState) allDeliver putArgs).1 = "__FAIL__"
    ∧ (handle_request soloState (constPeers soloState) allDeliver putArgs).2.1 = soloState := by
  decide

/-- Claim C2 (counterexample).  A subsequent call reusing request id `r1`
with a different key that maps to a shard the replica does not own returns
`__FAIL__`, not the cached reply `""`: the admission check runs before the
dedup lookup. -/
theorem dup_id_unowned_key_not_cached :
    lookupA dedupState.processed putArgsOtherShard.request_id = some ""
    ∧ (handle_request dedupState (constPeers primState) allDeliver putArgsOtherShard).1
        = "__FAIL__"
    ∧ (handle_request dedupState (constPeers primState) allDeliver putArgsOtherShard).1
        ≠ "" := by
  decide

/-- Claim C2 (amended).  For a request id already in the dedup table: the
call never mutates the replica (store, dedup table, and the peers are all
left unchanged, whatever the key, op, or value), and whenever the call
passes admission (the replica owns the new key's shard) it returns exactly
the cached reply — for `Put`/`Append` via `_handle_request` and for
`Replicate` alike. -/
theorem dup_id_returns_cache_never_mutates
    (st : ReplicaState) (peers : Nat → ReplicaState) (deliver : Nat → Nat → Bool)
    (args : PAArgs) (r : String)
    (h : lookupA st.processed args.request_id = some r) :
    (owns_shard st args.key = true →
        handle_request st peers deliver args = (r, st, peers)
        ∧ Replicate st args = (r, st))
    ∧ (handle_request st peers deliver args).2.1 = st
    ∧ (handle_request st peers deliver args).2.2 = peers
    ∧ (Replicate st args).2 = st := by
  cases howns : owns_shard st args.key with
  | false => simp [handle_request, Replicate, howns]
  | true => simp [handle_request, Replicate, apply_mutation, howns, h]

/-- Claim C2 (witness). -/
theorem dup_id_returns_cache_never_mutates_witness :
    lookupA dedupState.processed dupArgs.request_id = some ""
    ∧ ((owns_shard dedupState dupArgs.key = true →
          handle_request dedupState (constPeers primState) allDeliver dupArgs
            = ("", dedupState, constPeers primState)
          ∧ Replicate dedupState dupArgs = ("", dedupState))
       ∧ (handle_request dedupState (constPeers primState) allDeliver dupArgs).2.1 = dedupState
       ∧ (handle_request dedupState (constPeers primState) allDeliver dupArgs).2.2
           = constPeers primState
       ∧ (Replicate dedupState dupArgs).2 = dedupState) :=
  ⟨by decide,
   dup_id_returns_cache_never_mutates dedupState (constPeers primState) allDeliver
     dupArgs "" (by decide)⟩

/-- Claim C3.  A Put/Append that is actually applied (fresh request id)
and does not fail replies with the value the key held just before the
mutation — `store.get(key, "")` on the pre-state — and an Append on an
absent key stores exactly the appended value and replies `""`. -/
theorem reply_is_old_value
    (st : ReplicaState) (peers : Nat → ReplicaState) (deliver : Nat → Nat → Bool)
    (args : PAArgs)
    (hfresh : lookupA st.processed args.request_id = none)
    (hok : (handle_request st peers deliver args).1 ≠ "__FAIL__") :
    (handle_request st peers deliver args).1 = (lookupA st.store args.key).getD ""
    ∧ (args.op = "Append" → lookupA st.store args.key = none →
        lookupA (handle_request st peers deliver args).2.1.store args.key = some args.value
        ∧ (handle_request st peers deliver args).1 = "") := by
  cases howns : owns_shard st args.key with
  | false => simp [handle_request, howns] at hok
  | true =>
      by_cases hop : args.op = "Put" ∨ args.op = "Append"
      · by_cases hz : (forward_to_replicas st args peers deliver).1 = 0
        · simp [handle_request, howns, hfresh, hop, hz] at hok
        · have hres : handle_request st peers deliver args
              = ((apply_mutation st args).1, (apply_mutation st args).2,
                 (forward_to_replicas st args peers deliver).2) := by
            simp [handle_request, howns, hfresh, hop, hz]
          constructor
          · rw [hres]
            simp [apply_mutation, hfresh]
          · intro hA habs
            rw [hres]
            have hne : args.op ≠ "Put" := by simp [hA]
            simp [apply_mutation, hfresh, hA, hne, habs, lookupA_insertA]
      · have hres : handle_request st peers deliver args
            = ((apply_mutation st args).1, (apply_mutation st args).2, peers) := by
          simp [handle_request, howns, hfresh, hop]
        constructor
        · rw [hres]
          simp [apply_mutation, hfresh]
        · intro hA
          exact absurd (Or.inr hA) hop

/-- Claim C3 (witness): an Append on the absent key `"0"` at the primary
of a two-replica shard. -/
theorem reply_is_old_value_witness :
    lookupA primState.processed appendArgs.request_id = none
    ∧ (handle_request primState (constPeers secState) allDeliver appendArgs).1 ≠ "__FAIL__"
    ∧ ((handle_request primState (constPeers secState) allDeliver appendArgs).1
        = (lookupA primState.store appendArgs.key).getD ""
       ∧ (appendArgs.op = "Append" → lookupA primState.store appendArgs.key = none →
           lookupA (handle_request primState (constPeers secState) allDeliver appendArgs).2.1.store
             appendArgs.key = some appendArgs.value
           ∧ (handle_request primState (constPeers secState) allDeliver appendArgs).1 = "")) :=
  ⟨by decide, by decide,
   reply_is_old_value primState (constPeers secState) allDeliver appendArgs
     (by decide) (by decide)⟩

/-- Claim C5.  When a fresh Put/Append returns a non-FAIL reply and the
shard has at least one peer, some peer in the fan-out list holds the
request id in its dedup table in the returned peer states — peers record
the mutation before replying non-FAIL, and the handler only reaches its
local apply after the fan-out reports a nonzero success count. -/
theorem replicated_before_returned
    (st : ReplicaState) (peers : Nat → ReplicaState) (deliver : Nat → Nat → Bool)
    (args : PAArgs)
    (hfresh : lookupA st.processed args.request_id = none)
    (hop : args.op = "Put" ∨ args.op = "Append")
    (_hpeers : st.replica_ids.filter (fun r => r ≠ st.my_id) ≠ [])
    (hok : (handle_request st peers deliver args).1 ≠ "__FAIL__") :
    ∃ j ∈ st.replica_ids.filter (fun r => r ≠ st.my_id),
      ∃ v, lookupA ((handle_request st peers deliver args).2.2 j).processed
        args.request_id = some v := by
  cases howns : owns_shard st args.key with
  | false => simp [handle_request, howns] at hok
  | true =>
      by_cases hz : (forward_to_replicas st args peers deliver).1 = 0
      · simp [handle_request, howns, hfresh, hop, hz] at hok
      · have h22 : (handle_request st peers deliver args).2.2
            = (forward_to_replicas st args peers deliver).2 := by
          simp [handle_request, howns, hfresh, hop, hz]
        rw [h22]
        exact forwardList_success_recorded args deliver
          (st.replica_ids.filter (fun r => r ≠ st.my_id)) peers hz

/-- Claim C5 (witness): primary 0 of shard 0 with peer 1, fresh Put,
every RPC delivered. -/
theorem replicated_before_returned_witness :
    lookupA primState.processed putArgs.request_id = none
    ∧ (putArgs.op = "Put" ∨ putArgs.op = "Append")
    ∧ primState.replica_ids.filter (fun r => r ≠ primState.my_id) ≠ []
    ∧ (handle_request primState (constPeers secState) allDeliver putArgs).1 ≠ "__FAIL__"
    ∧ (∃ j ∈ primState.replica_ids.filter (fun r => r ≠ primState.my_id),
        ∃ v, lookupA ((handle_request primState (constPeers secState) allDeliver putArgs).2.2 j).processed
          putArgs.request_id = some v) :=
  ⟨by decide, Or.inl rfl, by decide, by decide,
   replicated_before_returned primState (constPeers secState) allDeliver putArgs
     (by decide) (Or.inl rfl) (by decide) (by decide)⟩

/-- Claim C6 (counterexample).  Server 1 is not the primary of shard 0
(the replica list is `[0, 1]`), yet a direct Put it handles is accepted:
the reply is the old value `""` rather than `__FAIL__`, and its store is
mutated — `_handle_request` never consults `is_primary`. -/
theorem nonprimary_accepts_direct_put :
    is_primary secState = false
    ∧ secState.replica_ids.head? = some 0
    ∧ (handle_request secState (constPeers primState) allDeliver putArgs).1 = ""
    ∧ (handle_request secState (constPeers primState) allDeliver putArgs).1 ≠ "__FAIL__"
    ∧ (handle_request secState (constPeers primState) allDeliver putArgs).2.1.store
        = [("0", "A")] := by
  decide

/-- Claim C6 (amended).  Any replica that owns the key's shard — enabled,
assigned the shard, and listed in its own replica list — accepts a direct
Put/Append and initiates replication, whether or not it is the first
(primary) entry: with a fresh id and a nonzero fan-out success count the
request is applied and the old value returned, even when `is_primary` is
false. -/
theorem owner_accepts_direct_mutation
    (st : ReplicaState) (peers : Nat → ReplicaState) (deliver : Nat → Nat → Bool)
    (args : PAArgs)
    (howns : owns_shard st args.key = true)
    (_hnp : is_primary st = false)
    (hfresh : lookupA st.processed args.request_id = none)
    (hop : args.op = "Put" ∨ args.op = "Append")
    (hfwd : (forward_to_replicas st args peers deliver).1 ≠ 0) :
    (handle_request st peers deliver args).1 = (lookupA st.store args.key).getD ""
    ∧ lookupA (handle_request st peers deliver args).2.1.processed args.request_id
        = some ((lookupA st.store args.key).getD "") := by
  simp [handle_request, howns, hfresh, hop, hfwd, apply_mutation, lookupA_insertA]

/-- Claim C6 (witness). -/
theorem owner_accepts_direct_mutation_witness :
    owns_shard secState putArgs.key = true
    ∧ is_primary secState = false
    ∧ lookupA secState.processed putArgs.request_id = none
    ∧ (putArgs.op = "Put" ∨ putArgs.op = "Append")
    ∧ (forward_to_replicas secState putArgs (constPeers primState) allDeliver).1 ≠ 0
    ∧ ((handle_request secState (constPeers primState) allDeliver putArgs).1
        = (lookupA secState.store putArgs.key).getD ""
       ∧ lookupA (handle_request secState (constPeers primState) allDeliver putArgs).2.1.processed
           putArgs.request_id = some ((lookupA secState.store putArgs.key).getD "")) :=
  ⟨by decide, by decide, by decide, Or.inl rfl, by decide,
   owner_accepts_direct_mutation secState (constPeers primState) allDeliver putArgs
     (by decide) (by decide) (by decide) (Or.inl rfl) (by decide)⟩

/-- Claim C7.  A Put, Append, or Replicate whose key the contacted
replica does not own (wrong shard, replica disabled, or replica missing
from its own replica list all make `owns_shard` false) returns `__FAIL__`
with the replica — store and dedup table — and the peers untouched. -/
theorem unowned_mutation_rejected_unchanged
    (st : ReplicaState) (peers : Nat → ReplicaState) (deliver : Nat → Nat → Bool)
    (args : PAArgs)
    (h : owns_shard st args.key = false) :
    handle_request st peers deliver args = ("__FAIL__", st, peers)
    ∧ Replicate st args = ("__FAIL__", st) := by
  simp [handle_request, Replicate, h]

/-- Claim C7 (witness): server 0 of shard 0 contacted with key `"1"`
(shard 1). -/
theorem unowned_mutation_rejected_unchanged_witness :
    owns_shard soloState putArgsOtherShard.key = false
    ∧ (handle_request soloState (constPeers soloState) allDeliver putArgsOtherShard
        = ("__FAIL__", soloState, constPeers soloState)
       ∧ Replicate soloState putArgsOtherShard = ("__FAIL__", soloState)) :=
  ⟨by decide,
   unowned_mutation_rejected_unchanged soloState (constPeers soloState) allDeliver
     putArgsOtherShard (by decide)⟩

/-- Claim C10.  For a fresh request id, a `__FAIL__` produced by the
admission check or by the replication gate inserts nothing: the replica is
returned unchanged, so a retry with the same id can still apply; and any
entry the call does leave under that id equals the non-trivially computed
reply it returned (a dedup entry always records the applied reply). -/
theorem fail_reply_not_recorded
    (st : ReplicaState) (peers : Nat → ReplicaState) (deliver : Nat → Nat → Bool)
    (args : PAArgs)
    (hfresh : lookupA st.processed args.request_id = none) :
    (owns_shard st args.key = false →
        handle_request st peers deliver args = ("__FAIL__", st, peers)
        ∧ Replicate st args = ("__FAIL__", st))
    ∧ ((args.op = "Put" ∨ args.op = "Append") →
        (forward_to_replicas st args peers deliver).1 = 0 →
        (handle_request st peers deliver args).1 = "__FAIL__"
        ∧ (handle_request st peers deliver args).2.1 = st)
    ∧ (∀ v, lookupA (handle_request st peers deliver args).2.1.processed args.request_id
          = some v →
        (handle_request st peers deliver args).1 = v) := by
  refine ⟨fun h => by simp [handle_request, Replicate, h], ?_, ?_⟩
  · intro hop hz
    cases howns : owns_shard st args.key with
    | false => simp [handle_request, howns]
    | true => simp [handle_request, howns, hfresh, hop, hz]
  · intro v hv
    cases howns : owns_shard st args.key with
    | false =>
        simp only [handle_request, howns] at hv
        simp [hfresh] at hv
    | true =>
        by_cases hop : args.op = "Put" ∨ args.op = "Append"
        · by_cases hz : (forward_to_replicas st args peers deliver).1 = 0
          · simp only [handle_request, howns] at hv
            simp [hfresh, hop, hz] at hv
          · have hres : handle_request st peers deliver args
                = ((apply_mutation st args).1, (apply_mutation st args).2,
                   (forward_to_replicas st args peers deliver).2) := by
              simp [handle_request, howns, hfresh, hop, hz]
            rw [hres] at hv ⊢
            simp only [apply_mutation, hfresh] at hv ⊢
            simpa [lookupA_insertA] using hv
        · have hres : handle_request st peers deliver args
              = ((apply_mutation st args).1, (apply_mutation st args).2, peers) := by
            simp [handle_request, howns, hfresh, hop]
          rw [hres] at hv ⊢
          simp only [apply_mutation, hfresh] at hv ⊢
          simpa [lookupA_insertA] using hv

/-- Claim C10 (witness): the gate case on the single-replica shard — the
write fails and nothing is recorded. -/
theorem fail_reply_not_recorded_witness :
    lookupA soloState.processed putArgs.request_id = none
    ∧ ((owns_shard soloState putArgs.key = false →
          handle_request soloState (constPeers soloState) allDeliver putArgs
            = ("__FAIL__", soloState, constPeers soloState)
          ∧ Replicate soloState putArgs = ("__FAIL__", soloState))
       ∧ ((putArgs.op = "Put" ∨ putArgs.op = "Append") →
           (forward_to_replicas soloState putArgs (constPeers soloState) allDeliver).1 = 0 →
           (handle_request soloState (constPeers soloState) allDeliver putArgs).1 = "__FAIL__"
           ∧ (handle_request soloState (constPeers soloState) allDeliver putArgs).2.1 = soloState)
       ∧ (∀ v, lookupA (handle_request soloState (constPeers soloState) allDeliver putArgs).2.1.processed
             putArgs.request_id = some v →
           (handle_request soloState (constPeers soloState) allDeliver putArgs).1 = v)) :=
  ⟨by decide,
   fail_reply_not_recorded soloState (constPeers soloState) allDeliver putArgs (by decide)⟩

/-- Claim C4 (counterexample).  The key `"-5"` parses under Python `int`
(as a negative integer, hence not as a non-negative one), so the claim
wants the code-point-sum branch `(45 + 53) mod 3 = 2`; the code instead
computes `int("-5") mod 3 = 1`. -/
theorem negative_key_shard_mismatch :
    pyParseInt "-5" = some (-5)
    ∧ key_to_shard "-5" 3 = 1
    ∧ ("-5".data.map Char.toNat).sum % 3 = 2
    ∧ key_to_shard "-5" 3 ≠ ("-5".data.map Char.toNat).sum % 3 := by
  decide

/-- Claim C4 (amended).  Server and Clerk compute the same shard; the
shard is `int(key) mod N` (Python semantics: any parsable integer,
negative ones included, with a non-negative result) whenever `int(key)`
succeeds, and the sum of the key's code points mod `N` otherwise; and the
result always lies below `N`. -/
theorem key_to_shard_characterization (key : String) (n : Nat) (hn : 0 < n) :
    clerkKeyToShard key n = key_to_shard key n
    ∧ (∀ i : Int, pyParseInt key = some i → key_to_shard key n = (i.emod (n : Int)).toNat)
    ∧ (pyParseInt key = none → key_to_shard key n = (key.data.map Char.toNat).sum % n)
    ∧ key_to_shard key n < n := by
  refine ⟨rfl, ?_, ?_, ?_⟩
  · intro i hi
    simp [key_to_shard, hi]
  · intro hi
    simp [key_to_shard, hi]
  · cases hp : pyParseInt key with
    | none =>
        simp only [key_to_shard, hp]
        exact Nat.mod_lt _ hn
    | some i =>
        simp only [key_to_shard, hp]
        have hn' : (0 : Int) < (n : Int) := by exact_mod_cast hn
        have h1 : i.emod (n : Int) < (n : Int) := Int.emod_lt_of_pos i hn'
        have h2 : 0 ≤ i.emod (n : Int) := Int.emod_nonneg i (by omega)
        omega

/-- Claim C4 (witness): the characterization evaluated at key `"-5"`,
`N = 3`. -/
theorem key_to_shard_characterization_witness :
    0 < 3
    ∧ (clerkKeyToShard "-5" 3 = key_to_shard "-5" 3
       ∧ (∀ i : Int, pyParseInt "-5" = some i → key_to_shard "-5" 3 = (i.emod (3 : Int)).toNat)
       ∧ (pyParseInt "-5" = none → key_to_shard "-5" 3 = ("-5".data.map Char.toNat).sum % 3)
       ∧ key_to_shard "-5" 3 < 3) :=
  ⟨by decide, key_to_shard_characterization "-5" 3 (by decide)⟩

/-- Claim C8 (counterexample).  Dispatching an unknown service
(`"KVStore.Get"` against a host registering only `KVServer`) or an
unknown method (`"KVServer.Delete"`) yields the per-request failure reply
`ReplyMsg(False, None)` — `logging.fatal` only logs — and not process
termination. -/
theorem unknown_dispatch_is_failure_reply :
    serverDispatch [("KVServer", kvServiceM)] "KVStore.Get" 0 = RpcStep.reply false none
    ∧ serverDispatch [("KVServer", kvServiceM)] "KVServer.Delete" 0 = RpcStep.reply false none
    ∧ RpcStep.reply false (none : Option Nat) ≠ RpcStep.procExit := by
  refine ⟨rfl, rfl, by simp⟩

/-- Claim C8 (amended).  RPC dispatch never terminates the process: an
unknown service or method name logs at critical level and produces the
failure reply `(ok=False, None)` to the caller, and no dispatch outcome is
process exit. -/
theorem dispatch_never_exits {α ρ : Type}
    (services : List (String × ServiceM α ρ)) (svcMeth : String) (arg : α)
    (svc : ServiceM α ρ) (m : String) :
    serverDispatch services svcMeth arg ≠ RpcStep.procExit
    ∧ serviceDispatch svc m arg ≠ RpcStep.procExit
    ∧ (List.lookup m svc.methods = none →
        serviceDispatch svc m arg = RpcStep.reply false none)
    ∧ (∀ sname mname, splitLastDot svcMeth = some (sname, mname) →
        List.lookup sname services = none →
        serverDispatch services svcMeth arg = RpcStep.reply false none) := by
  refine ⟨?_, ?_, ?_, ?_⟩
  · cases hs : splitLastDot svcMeth with
    | none => simp [serverDispatch, hs]
    | some p =>
        obtain ⟨sn, mn⟩ := p
        cases hl : List.lookup sn services with
        | none => simp [serverDispatch, hs, hl]
        | some svc' =>
            cases hm : List.lookup mn svc'.methods with
            | none => simp [serverDispatch, serviceDispatch, hs, hl, hm]
            | some f => simp [serverDispatch, serviceDispatch, hs, hl, hm]
  · cases hm : List.lookup m svc.methods with
    | none => simp [serviceDispatch, hm]
    | some f => simp [serviceDispatch, hm]
  · intro hm
    simp [serviceDispatch, hm]
  · intro sname mname hs hl
    simp [serverDispatch, hs, hl]

/-- Claim C8 (witness). -/
theorem dispatch_never_exits_witness :
    serverDispatch [("KVServer", kvServiceM)] "KVStore.Get" 0 ≠ RpcStep.procExit
    ∧ serviceDispatch kvServiceM "Delete" 0 ≠ RpcStep.procExit
    ∧ (List.lookup "Delete" kvServiceM.methods = none →
        serviceDispatch kvServiceM "Delete" 0 = RpcStep.reply false none)
    ∧ (∀ sname mname, splitLastDot "KVStore.Get" = some (sname, mname) →
        List.lookup sname [("KVServer", kvServiceM)] = none →
        serverDispatch [("KVServer", kvServiceM)] "KVStore.Get" 0
          = RpcStep.reply false none) :=
  dispatch_never_exits [("KVServer", kvServiceM)] "KVStore.Get" 0 kvServiceM "Delete"

/-- Claim C9.  With a non-empty server list for the key's shard,
`put_append` bumps the clerk's counter exactly once, every RPC it issues
across all 50 retry attempts carries the one request id minted from that
counter before the loop, and if no attempt ever yields a non-`__FAIL__`
reply the call returns `__FAIL__`. -/
theorem clerk_fixed_request_id
    (ck : ClerkState) (uuid : String) (nshards : Nat)
    (stos : Nat → List Nat) (enabled : Nat → Bool) (rpc : Nat → Nat → Option String)
    (key value op : String)
    (hs : stos (clerkKeyToShard key nshards) ≠ []) :
    (put_append ck uuid nshards stos enabled rpc key value op).2.1.req_counter
      = ck.req_counter + 1
    ∧ (∀ e ∈ (put_append ck uuid nshards stos enabled rpc key value op).2.2,
        e.2.2 = uuid ++ "-" ++ toString (ck.req_counter + 1))
    ∧ ((∀ a sid v, rpc a sid = some v → v = "__FAIL__") →
        (put_append ck uuid nshards stos enabled rpc key value op).1 = "__FAIL__") := by
  refine ⟨?_, ?_, ?_⟩
  · simp [put_append, hs, next_request_id]
  · intro e he
    simp only [put_append, hs, if_neg hs, next_request_id] at he
    exact clerkRetry_entry_rid enabled rpc _ _ 50 0 e he
  · intro hfail
    simp only [put_append, hs, if_neg hs, next_request_id]
    exact clerkRetry_all_fail enabled rpc _ _ hfail 50 0

/-- Claim C9 (witness): shard 0 served by `[0, 1]`, every RPC lost. -/
theorem clerk_fixed_request_id_witness :
    (fun s => if s = 0 then [0, 1] else []) (clerkKeyToShard "0" 3) ≠ ([] : List Nat)
    ∧ ((put_append ⟨4⟩ "u" 3 (fun s => if s = 0 then [0, 1] else []) (fun _ => true)
          (fun _ _ => none) "0" "A" "Put").2.1.req_counter = (4 : Nat) + 1
       ∧ (∀ e ∈ (put_append ⟨4⟩ "u" 3 (fun s => if s = 0 then [0, 1] else []) (fun _ => true)
             (fun _ _ => none) "0" "A" "Put").2.2,
           e.2.2 = "u" ++ "-" ++ toString ((4 : Nat) + 1))
       ∧ ((∀ a sid v, (fun (_ : Nat) (_ : Nat) => (none : Option String)) a sid = some v →
             v = "__FAIL__") →
           (put_append ⟨4⟩ "u" 3 (fun s => if s = 0 then [0, 1] else []) (fun _ => true)
             (fun _ _ => none) "0" "A" "Put").1 = "__FAIL__")) :=
  ⟨by decide,
   clerk_fixed_request_id ⟨4⟩ "u" 3 (fun s => if s = 0 then [0, 1] else [])
     (fun _ => true) (fun _ _ => none) "0" "A" "Put" (by decide)⟩

end KVStore
